import Mathlib

/-!
Shallow embedding of `chain-tx-enclave-next/enclave-ra/ra-client/src/verifier.rs`,
the remote-attestation-aware TLS certificate verifier of this repository.

Byte strings are `List Nat`; instants (`chrono::DateTime<Utc>` timestamps) are `Int`
seconds since the Unix epoch; durations are `Int` seconds.  External library calls
(x509 DER parsing, serde_json, rustls pemfile, webpki chain/signature verification,
chrono datetime parsing, and the `ra_common` status/quote decoders, none of which are
part of the repository source under verification) are fields of an `ExternalEnv`
record: each is an arbitrary deterministic function, and the theorems quantify over
it.  The control flow, check order and error constructors are translated directly
from `verifier.rs`.
-/

namespace RaClient

abbrev Byte := Nat

/-- Rust's derived `Ord` on byte sequences (`Vec<u8>` / `[u8; N]`): lexicographic,
first differing byte decides, a strict prefix is smaller. -/
def lexCompare : List Byte → List Byte → Ordering
  | [], [] => .eq
  | [], _ :: _ => .lt
  | _ :: _, [] => .gt
  | x :: xs, y :: ys =>
    if x < y then .lt else if y < x then .gt else lexCompare xs ys

/-- The strict `>` used by the source's `enclave_info.cpu_svn > quote.report_body.cpu_svn`. -/
def lexGt (a b : List Byte) : Bool := lexCompare a b == Ordering.gt

/-- Lexicographic `≤`, the ordering the specification states for `cpu_svn`. -/
def lexLe (a b : List Byte) : Bool :=
  lexCompare a b == Ordering.lt || lexCompare a b == Ordering.eq

structure Measurement where
  mr_signer : List Byte
  mr_enclave : List Byte
deriving DecidableEq

structure QuoteReportBody where
  cpu_svn : List Byte
  isv_svn : Nat
  measurement : Measurement
  report_data : List Byte
deriving DecidableEq

/-- `ra_common::Quote`: only the fields the verifier reads are modelled. -/
structure Quote where
  report_body : QuoteReportBody
deriving DecidableEq

/-- `ra_common::AttestationReport`, the JSON envelope. -/
structure AttestationReport where
  body : List Byte
  signature : List Byte
  signing_cert : List Byte
deriving DecidableEq

/-- `ra_common::AttestationReportBody`: only the fields the verifier reads. -/
structure AttestationReportBody where
  timestamp : String
  isv_enclave_quote_status : String
  isv_enclave_quote_body : String
deriving DecidableEq

/-- Modelled from the spec: the recognized quote status literals of
`ra_common::EnclaveQuoteStatus` (the `ra_common` crate is not under `src/`).
The spec lists at minimum these five literals. -/
inductive EnclaveQuoteStatus where
  | OK
  | ConfigurationAndSwHardeningNeeded
  | GroupOutOfDate
  | SwHardeningNeeded
  | ConfigurationNeeded
deriving DecidableEq

/-- Modelled from the spec: `EnclaveInfo` (defined in the crate outside `src/`):
`mr_signer` (32 bytes), optional `mr_enclave` (32 bytes), `cpu_svn` (ordered
16-byte vector), `isv_svn` (16-bit unsigned, embedded as `Nat`). -/
structure EnclaveInfo where
  mr_signer : List Byte
  mr_enclave : Option (List Byte)
  cpu_svn : List Byte
  isv_svn : Nat
deriving DecidableEq

/-- Modelled from the spec: `EnclaveCertVerifierConfig` (defined outside `src/`):
PEM root bytes, accepted status literals, non-negative freshness window in
seconds, optional expected identity. -/
structure EnclaveCertVerifierConfig where
  signing_ca_cert_pem : List Byte
  valid_enclave_quote_statuses : List String
  report_validity_secs : Nat
  enclave_info : Option EnclaveInfo

/-- The error enum of `verifier.rs`.  Payloads of external library errors
(`serde_json::Error`, `webpki::Error`, `chrono::ParseError`, ...) are opaque and
embedded as `String`. -/
inductive EnclaveCertVerifierError where
  | AttestationReportParsingError (err : String)
  | AttestationReportSigningCertificateChainParsingError
  | AttestationReportSigningCertificateParsingError
  | AttestationReportSigningCertificateVerificationError (err : String)
  | CertificateExpired
  | CertificateNotBegin
  | CertificateParsingError
  | DateTimeParsingError (err : String)
  | EnclaveQuoteStatusParsingError (err : String)
  | InvalidEnclaveQuoteStatus (status : String)
  | IoError (err : String)
  | JsonError (err : String)
  | MeasurementMismatch
  | MissingAttestationReport
  | MissingAttestationReportSigningCertificate
  | OldAttestationReport
  | PublicKeyMismatch
  | QuoteParsingError (err : String)
  | TimeError
  | WebpkiError (err : String)
deriving DecidableEq

/-- `rustls::TLSError`, restricted to the two ways this module produces it:
`NoCertificatesPresented`, and `General(e.to_string())` for a typed verifier
error `e` (the typed error is carried instead of its rendered string). -/
inductive TLSError where
  | NoCertificatesPresented
  | General (err : EnclaveCertVerifierError)
deriving DecidableEq

/-- The fields of `x509_parser`'s parsed certificate that `verify_cert` reads:
`tbs_certificate.validity`, `tbs_certificate.extensions` (OID/value pairs) and
`tbs_certificate.subject_pki.subject_public_key.data`. -/
structure Validity where
  not_before : Int
  not_after : Int
deriving DecidableEq

structure ParsedCertificate where
  validity : Validity
  extensions : List (List Nat × List Byte)
  subject_public_key : List Byte
deriving DecidableEq

/-- Modelled from the spec: `ra_common::OID_EXTENSION_ATTESTATION_REPORT` is a
fixed opaque OID constant from the shared attestation-common module (not under
`src/`); its exact digits do not influence the verifier's behavior. -/
def OID_EXTENSION_ATTESTATION_REPORT : List Nat := [1, 3, 6, 1, 4, 1, 53770, 1]

/-- The external (non-repository) library functions used by `verifier.rs`, as
abstract deterministic functions.  `none`/`Except.error` is the library call
failing; error payloads are opaque strings.
  * `parse_x509_der` — `x509_parser::parse_x509_der`.
  * `json_parse_report` — `serde_json::from_slice::<AttestationReport>`.
  * `pem_certs` — `rustls::internal::pemfile::certs`, splitting a PEM chain
    into DER certificates (an input with zero PEM blocks yields `some []`).
  * `end_entity_from` — whether `webpki::EndEntityCert::from` succeeds on the
    given DER bytes (the end-entity certificate is identified by those bytes).
  * `verify_chain` — `EndEntityCert::verify_is_valid_tls_server_cert` over
    (end entity, intermediates, trust anchors, time); `none` means success.
  * `verify_signature` — `EndEntityCert::verify_signature` with
    RSA_PKCS1_2048_8192_SHA256 over (certificate, message, signature).
  * `json_parse_body` — `serde_json::from_slice::<AttestationReportBody>`.
  * `parse_datetime` — `str::parse::<DateTime<Utc>>`, seconds since epoch.
  * `parse_status` — `ra_common::EnclaveQuoteStatus::from_str`.
  * `get_quote` — `AttestationReportBody::get_quote` (base64 + layout decode).
  * `add_pem_file` — `rustls::RootCertStore::add_pem_file`: `none` on a PEM
    read error, otherwise the list of DER roots added to the store (rustls
    returns `Ok` with zero certificates added for certificate-free input). -/
structure ExternalEnv where
  parse_x509_der : List Byte → Option ParsedCertificate
  json_parse_report : List Byte → Except String AttestationReport
  pem_certs : List Byte → Option (List (List Byte))
  end_entity_from : List Byte → Bool
  verify_chain : List Byte → List (List Byte) → List (List Byte) → Int → Option String
  verify_signature : List Byte → List Byte → List Byte → Option String
  json_parse_body : List Byte → Except String AttestationReportBody
  parse_datetime : String → Except String Int
  parse_status : String → Except String EnclaveQuoteStatus
  get_quote : AttestationReportBody → Except String Quote
  add_pem_file : List Byte → Option (List (List Byte))

/-- The verifier state built by `EnclaveCertVerifier::new` (the `HashSet` of
accepted statuses is a list consulted only through membership). -/
structure EnclaveCertVerifier where
  root_cert_store : List (List Byte)
  valid_enclave_quote_statuses : List EnclaveQuoteStatus
  report_validity_duration : Int
  enclave_info : Option EnclaveInfo
deriving DecidableEq

/-- Successful-path output of `verify_cert`. -/
structure CertVerifyResult where
  public_key : List Byte
  quote : Quote
deriving DecidableEq

/-- The loop `for status in config.valid_enclave_quote_statuses { insert(status.parse()?) }`:
the first parse failure propagates as `EnclaveQuoteStatusParsingError`. -/
def parse_statuses (env : ExternalEnv) :
    List String → Except EnclaveCertVerifierError (List EnclaveQuoteStatus)
  | [] => .ok []
  | s :: rest =>
    match env.parse_status s with
    | .error e => .error (.EnclaveQuoteStatusParsingError e)
    | .ok st =>
      match parse_statuses env rest with
      | .error e => .error e
      | .ok sts => .ok (st :: sts)

/-- `EnclaveCertVerifier::new` (verifier.rs lines 77-98): loads the PEM roots
(`add_pem_file` failure maps to `CertificateParsingError`), parses every
configured status literal, stores the freshness window as a duration.  The
source never inspects how many roots were added. -/
def EnclaveCertVerifier.new (env : ExternalEnv) (config : EnclaveCertVerifierConfig) :
    Except EnclaveCertVerifierError EnclaveCertVerifier :=
  match env.add_pem_file config.signing_ca_cert_pem with
  | none => .error .CertificateParsingError
  | some roots =>
    match parse_statuses env config.valid_enclave_quote_statuses with
    | .error e => .error e
    | .ok statuses =>
      .ok { root_cert_store := roots
            valid_enclave_quote_statuses := statuses
            report_validity_duration := (config.report_validity_secs : Int)
            enclave_info := config.enclave_info }

/-- `get_end_entity_certificate` (verifier.rs lines 65-73): first certificate of
the chain, or `MissingAttestationReportSigningCertificate` on an empty chain;
`EndEntityCert::from` failure maps to
`AttestationReportSigningCertificateParsingError`. -/
def get_end_entity_certificate (env : ExternalEnv) (certificate_chain : List (List Byte)) :
    Except EnclaveCertVerifierError (List Byte) :=
  match certificate_chain.head? with
  | none => .error .MissingAttestationReportSigningCertificate
  | some signing_cert =>
    if env.end_entity_from signing_cert then .ok signing_cert
    else .error .AttestationReportSigningCertificateParsingError

/-- `verify_end_entity_certificate` (verifier.rs lines 152-171): webpki chain
validation against the verifier's root store at `now`. -/
def verify_end_entity_certificate (env : ExternalEnv) (v : EnclaveCertVerifier)
    (end_entity_certificate : List Byte) (intermediate_certs : List (List Byte))
    (now : Int) : Option String :=
  env.verify_chain end_entity_certificate intermediate_certs v.root_cert_store now

/-- `verify_attestation_report_body` (verifier.rs lines 202-259): body JSON
decode, `"+00:00"` suffix and timestamp parse, freshness, status parse and
membership, quote decode, public-key binding, then the optional
enclave-identity checks, in the source's order. -/
def verify_attestation_report_body (env : ExternalEnv) (v : EnclaveCertVerifier)
    (attestation_report_body : List Byte) (public_key : List Byte) (now : Int) :
    Except EnclaveCertVerifierError Quote :=
  match env.json_parse_body attestation_report_body with
  | .error e => .error (.JsonError e)
  | .ok body =>
    match env.parse_datetime (body.timestamp ++ "+00:00") with
    | .error e => .error (.DateTimeParsingError e)
    | .ok attestation_report_time =>
      if attestation_report_time + v.report_validity_duration < now then
        .error .OldAttestationReport
      else
        match env.parse_status body.isv_enclave_quote_status with
        | .error e => .error (.EnclaveQuoteStatusParsingError e)
        | .ok status =>
          if status ∉ v.valid_enclave_quote_statuses then
            .error (.InvalidEnclaveQuoteStatus body.isv_enclave_quote_status)
          else
            match env.get_quote body with
            | .error e => .error (.QuoteParsingError e)
            | .ok quote =>
              if public_key.length != 65 || public_key.head? != some 4
                  || public_key.drop 1 != quote.report_body.report_data then
                .error .PublicKeyMismatch
              else
                match v.enclave_info with
                | none => .ok quote
                | some enclave_info =>
                  if enclave_info.mr_signer != quote.report_body.measurement.mr_signer then
                    .error .MeasurementMismatch
                  else if !(enclave_info.mr_enclave.all
                      fun m => m == quote.report_body.measurement.mr_enclave) then
                    .error .MeasurementMismatch
                  else if lexGt enclave_info.cpu_svn quote.report_body.cpu_svn then
                    .error .MeasurementMismatch
                  else if enclave_info.isv_svn > quote.report_body.isv_svn then
                    .error .MeasurementMismatch
                  else
                    .ok quote

/-- `verify_attestation_report` (verifier.rs lines 174-200): envelope JSON
decode, PEM chain split, end-entity extraction, chain validation, report
signature verification (its webpki error propagates through `From` as
`WebpkiError`), then the body checks. -/
def verify_attestation_report (env : ExternalEnv) (v : EnclaveCertVerifier)
    (attestation_report : List Byte) (public_key : List Byte) (now : Int) :
    Except EnclaveCertVerifierError Quote :=
  match env.json_parse_report attestation_report with
  | .error e => .error (.AttestationReportParsingError e)
  | .ok report =>
    match env.pem_certs report.signing_cert with
    | none => .error .AttestationReportSigningCertificateChainParsingError
    | some signing_certificate_chain =>
      match get_end_entity_certificate env signing_certificate_chain with
      | .error e => .error e
      | .ok signing_cert =>
        match verify_end_entity_certificate env v signing_cert
            (signing_certificate_chain.drop 1) now with
        | some webpki_error =>
          .error (.AttestationReportSigningCertificateVerificationError webpki_error)
        | none =>
          match env.verify_signature signing_cert report.body report.signature with
          | some e => .error (.WebpkiError e)
          | none => verify_attestation_report_body env v report.body public_key now

/-- `verify_cert` (verifier.rs lines 102-142): DER parse, validity window
against `now` in whole seconds, attestation extension lookup, then the report
verification; on success the subject public key is copied out with the quote. -/
def verify_cert (env : ExternalEnv) (v : EnclaveCertVerifier)
    (certificate : List Byte) (now : Int) :
    Except EnclaveCertVerifierError CertVerifyResult :=
  match env.parse_x509_der certificate with
  | none => .error .CertificateParsingError
  | some certificate =>
    let not_before := certificate.validity.not_before
    let not_after := certificate.validity.not_after
    let now_sec := now
    if now_sec < not_before then .error .CertificateNotBegin
    else if now_sec ≥ not_after then .error .CertificateExpired
    else
      let public_key := certificate.subject_public_key
      match certificate.extensions.find?
          (fun ext => ext.1 == OID_EXTENSION_ATTESTATION_REPORT) with
      | none => .error .MissingAttestationReport
      | some extension =>
        match verify_attestation_report env v extension.2 public_key now with
        | .error e => .error e
        | .ok quote => .ok { public_key := public_key, quote := quote }

/-- The adapters' loop `for cert in presented_certs { self.verify_cert(&cert.0, Utc::now())?; }`.
`clock k` is the value returned by the k-th call to `Utc::now()`: the source
calls `Utc::now()` afresh inside every loop iteration, so the i-th presented
certificate is verified at instant `clock i`. -/
def verify_certs_at (env : ExternalEnv) (v : EnclaveCertVerifier) (clock : Nat → Int) :
    List (List Byte) → Except TLSError Unit
  | [] => .ok ()
  | cert :: rest =>
    match verify_cert env v cert (clock 0) with
    | .error e => .error (.General e)
    | .ok _ => verify_certs_at env v (fun n => clock (n + 1)) rest

/-- `verify_server_cert` (verifier.rs lines 278-294): rejects an empty chain,
then verifies each presented certificate, sampling the platform clock anew for
each one. -/
def verify_server_cert (env : ExternalEnv) (v : EnclaveCertVerifier) (clock : Nat → Int)
    (presented_certs : List (List Byte)) : Except TLSError Unit :=
  if presented_certs.isEmpty then .error .NoCertificatesPresented
  else verify_certs_at env v clock presented_certs

/-- `verify_client_cert` (verifier.rs lines 306-320): identical verification
loop to the server-side adapter. -/
def verify_client_cert (env : ExternalEnv) (v : EnclaveCertVerifier) (clock : Nat → Int)
    (presented_certs : List (List Byte)) : Except TLSError Unit :=
  if presented_certs.isEmpty then .error .NoCertificatesPresented
  else verify_certs_at env v clock presented_certs

/-- Spec-side helper: `some a` passes the value through, `none` raises `e`. -/
def ofOption (o : Option α) (e : EnclaveCertVerifierError) :
    Except EnclaveCertVerifierError α :=
  match o with
  | some a => .ok a
  | none => .error e

/-- Spec-side helper: the check passes when `p` holds, otherwise raises `e`. -/
def checkThat (p : Prop) [Decidable p] (e : EnclaveCertVerifierError) :
    Except EnclaveCertVerifierError Unit :=
  if p then .ok () else .error e

/-- Spec-side helper: a library verdict `some err` raises `wrap err`. -/
def checkVerdict (r : Option String) (wrap : String → EnclaveCertVerifierError) :
    Except EnclaveCertVerifierError Unit :=
  match r with
  | some err => .error (wrap err)
  | none => .ok ()

/-- The verification pipeline written as a flat first-failure sequence, in the
order the specification's pipeline actually runs on the code: certificate parse,
validity window, extension lookup, envelope decode, chain split and end-entity
extraction, chain validation, report-signature verification, body decode,
timestamp parse, freshness, quote-status parse and membership, quote decode,
public-key binding, and finally the enclave-identity checks.  The claimed
equality `verify_cert = verify_cert_pipeline` states that the error returned by
`verify_cert` is always that of the first failing check of this sequence. -/
def verify_cert_pipeline (env : ExternalEnv) (v : EnclaveCertVerifier)
    (certificate : List Byte) (now : Int) :
    Except EnclaveCertVerifierError CertVerifyResult := do
  let cert ← ofOption (env.parse_x509_der certificate) .CertificateParsingError
  let _ ← checkThat (cert.validity.not_before ≤ now) .CertificateNotBegin
  let _ ← checkThat (now < cert.validity.not_after) .CertificateExpired
  let ext ← ofOption
    (cert.extensions.find? fun e => e.1 == OID_EXTENSION_ATTESTATION_REPORT)
    .MissingAttestationReport
  let report ← (env.json_parse_report ext.2).mapError
    EnclaveCertVerifierError.AttestationReportParsingError
  let chain ← ofOption (env.pem_certs report.signing_cert)
    .AttestationReportSigningCertificateChainParsingError
  let signing ← ofOption chain.head? .MissingAttestationReportSigningCertificate
  let _ ← checkThat (env.end_entity_from signing = true)
    .AttestationReportSigningCertificateParsingError
  let _ ← checkVerdict (env.verify_chain signing (chain.drop 1) v.root_cert_store now)
    EnclaveCertVerifierError.AttestationReportSigningCertificateVerificationError
  let _ ← checkVerdict (env.verify_signature signing report.body report.signature)
    EnclaveCertVerifierError.WebpkiError
  let body ← (env.json_parse_body report.body).mapError
    EnclaveCertVerifierError.JsonError
  let t ← (env.parse_datetime (body.timestamp ++ "+00:00")).mapError
    EnclaveCertVerifierError.DateTimeParsingError
  let _ ← checkThat (now ≤ t + v.report_validity_duration) .OldAttestationReport
  let status ← (env.parse_status body.isv_enclave_quote_status).mapError
    EnclaveCertVerifierError.EnclaveQuoteStatusParsingError
  let _ ← checkThat (status ∈ v.valid_enclave_quote_statuses)
    (.InvalidEnclaveQuoteStatus body.isv_enclave_quote_status)
  let quote ← (env.get_quote body).mapError
    EnclaveCertVerifierError.QuoteParsingError
  let pk := cert.subject_public_key
  let _ ← checkThat
    (pk.length = 65 ∧ pk.head? = some 4 ∧ pk.drop 1 = quote.report_body.report_data)
    .PublicKeyMismatch
  match v.enclave_info with
  | none => pure { public_key := pk, quote := quote }
  | some info => do
    let _ ← checkThat (info.mr_signer = quote.report_body.measurement.mr_signer)
      .MeasurementMismatch
    let _ ← checkThat
      (info.mr_enclave.all (fun m => m == quote.report_body.measurement.mr_enclave) = true)
      .MeasurementMismatch
    let _ ← checkThat (lexLe info.cpu_svn quote.report_body.cpu_svn = true)
      .MeasurementMismatch
    let _ ← checkThat (info.isv_svn ≤ quote.report_body.isv_svn) .MeasurementMismatch
    pure { public_key := pk, quote := quote }

/-!
## Concrete fixtures

A small concrete instantiation of the external environment, used to evaluate
the embedded verifier on explicit inputs (witnesses and counterexamples).  Each
field returns fixed parsed values on designated concrete inputs and fails
elsewhere, consistent with the behavior of the corresponding library:
in particular `add_pem_file` on the empty input returns `some []`, because
`rustls::RootCertStore::add_pem_file` finds zero PEM blocks in it and returns
`Ok((0, 0))` without an error.
-/

def demoReportData : List Byte := List.replicate 64 7

def demoPk : List Byte := 4 :: demoReportData

def demoMeasurement : Measurement :=
  { mr_signer := List.replicate 32 1, mr_enclave := List.replicate 32 2 }

def demoQuote : Quote :=
  { report_body :=
      { cpu_svn := List.replicate 16 5
        isv_svn := 3
        measurement := demoMeasurement
        report_data := demoReportData } }

def demoBody : AttestationReportBody :=
  { timestamp := "2020-01-01T00:00:00"
    isv_enclave_quote_status := "OK"
    isv_enclave_quote_body := "qb" }

def demoBodyUnknownStatus : AttestationReportBody :=
  { demoBody with isv_enclave_quote_status := "WEIRD" }

def demoBodyOutdatedStatus : AttestationReportBody :=
  { demoBody with isv_enclave_quote_status := "GROUP_OUT_OF_DATE" }

def demoReport : AttestationReport :=
  { body := [3], signature := [9], signing_cert := [5] }

def demoCert : ParsedCertificate :=
  { validity := { not_before := 0, not_after := 100 }
    extensions := [(OID_EXTENSION_ATTESTATION_REPORT, [2])]
    subject_public_key := demoPk }

def demoCertLate : ParsedCertificate :=
  { demoCert with validity := { not_before := 40, not_after := 100 } }

def demoCertEmptyKey : ParsedCertificate :=
  { demoCert with subject_public_key := [] }

def demoRootPem : List Byte := [80]

/-- Modelled from the spec: `ra_common::EnclaveQuoteStatus::from_str` recognizes
exactly the status literals (not under `src/`); anything else is a parse error
carrying the offending string. -/
def demoStatusParse (s : String) : Except String EnclaveQuoteStatus :=
  if s = "OK" then .ok .OK
  else if s = "CONFIGURATION_AND_SW_HARDENING_NEEDED" then
    .ok .ConfigurationAndSwHardeningNeeded
  else if s = "GROUP_OUT_OF_DATE" then .ok .GroupOutOfDate
  else if s = "SW_HARDENING_NEEDED" then .ok .SwHardeningNeeded
  else if s = "CONFIGURATION_NEEDED" then .ok .ConfigurationNeeded
  else .error s

def demoEnv : ExternalEnv :=
  { parse_x509_der := fun b =>
      if b = [1] then some demoCert
      else if b = [11] then some demoCertLate
      else if b = [31] then some demoCertEmptyKey
      else none
    json_parse_report := fun b =>
      if b = [2] then .ok demoReport
      else if b = [20] then .ok { demoReport with signing_cert := [50] }
      else if b = [21] then .ok { demoReport with signing_cert := [51] }
      else if b = [22] then .ok { demoReport with signing_cert := [52] }
      else .error "json"
    pem_certs := fun b =>
      if b = [5] then some [[6]]
      else if b = [51] then some []
      else if b = [52] then some [[60]]
      else none
    end_entity_from := fun c => c == [6]
    verify_chain := fun _ _ _ _ => none
    verify_signature := fun _ _ _ => none
    json_parse_body := fun b =>
      if b = [3] then .ok demoBody
      else if b = [30] then .ok demoBodyUnknownStatus
      else if b = [33] then .ok demoBodyOutdatedStatus
      else .error "body"
    parse_datetime := fun s =>
      if s = "2020-01-01T00:00:00+00:00" then .ok 10 else .error "dt"
    parse_status := demoStatusParse
    get_quote := fun b =>
      if b.isv_enclave_quote_body = "qb" then .ok demoQuote else .error "quote"
    add_pem_file := fun b =>
      if b = ([] : List Byte) then some []
      else if b = demoRootPem then some [[6]]
      else none }

def demoVerifier : EnclaveCertVerifier :=
  { root_cert_store := [[6]]
    valid_enclave_quote_statuses := [.OK]
    report_validity_duration := 86400
    enclave_info := none }

def demoInfoMismatch : EnclaveInfo :=
  { mr_signer := List.replicate 32 9
    mr_enclave := none
    cpu_svn := List.replicate 16 0
    isv_svn := 0 }

def demoVerifierInfoMismatch : EnclaveCertVerifier :=
  { demoVerifier with enclave_info := some demoInfoMismatch }

def demoInfoMatch : EnclaveInfo :=
  { mr_signer := List.replicate 32 1
    mr_enclave := some (List.replicate 32 2)
    cpu_svn := List.replicate 16 5
    isv_svn := 3 }

def demoVerifierInfoMatch : EnclaveCertVerifier :=
  { demoVerifier with enclave_info := some demoInfoMatch }

def demoResult : CertVerifyResult :=
  { public_key := demoPk, quote := demoQuote }

def demoClockA : Nat → Int := fun n => if n = 0 then 10 else 50

def demoClockB : Nat → Int := fun _ => 10

/-!
## Helper lemmas
-/

lemma lexCompare_self (a : List Byte) : lexCompare a a = .eq := by
  induction a with
  | nil => rfl
  | cons x xs ih => simpa [lexCompare] using ih

lemma lexGt_self (a : List Byte) : lexGt a a = false := by
  unfold lexGt
  rw [lexCompare_self]
  rfl

lemma lexGt_eq_false_iff (a b : List Byte) : lexGt a b = false ↔ lexLe a b = true := by
  unfold lexGt lexLe
  cases h : lexCompare a b <;> decide

/-- Classifier for the two certificate-validity-window errors of `verify_cert`. -/
def isWindowError : EnclaveCertVerifierError → Bool
  | .CertificateNotBegin => true
  | .CertificateExpired => true
  | _ => false

lemma isWindowError_false_iff (e : EnclaveCertVerifierError) :
    isWindowError e = false ↔
      (e ≠ .CertificateNotBegin ∧ e ≠ .CertificateExpired) := by
  cases e <;> simp [isWindowError]

/-- `get_end_entity_certificate` never produces a certificate-validity-window
error. -/
lemma get_end_entity_certificate_error_shape (env : ExternalEnv)
    (chain : List (List Byte)) :
    ∀ e, get_end_entity_certificate env chain = .error e → isWindowError e = false := by
  intro e he
  unfold get_end_entity_certificate at he
  repeat' split at he
  all_goals try cases he
  all_goals rfl

/-- The report-body checks never produce a certificate-validity-window error. -/
lemma verify_attestation_report_body_error_shape (env : ExternalEnv)
    (v : EnclaveCertVerifier) (b pk : List Byte) (now : Int) :
    ∀ e, verify_attestation_report_body env v b pk now = .error e →
      isWindowError e = false := by
  intro e he
  unfold verify_attestation_report_body at he
  repeat' split at he
  all_goals try cases he
  all_goals rfl

/-- The attestation-report stage never produces a certificate-validity-window
error. -/
lemma verify_attestation_report_error_shape (env : ExternalEnv)
    (v : EnclaveCertVerifier) (a pk : List Byte) (now : Int) :
    ∀ e, verify_attestation_report env v a pk now = .error e →
      isWindowError e = false := by
  intro e he
  unfold verify_attestation_report at he
  repeat' split at he
  all_goals try cases he
  all_goals try rfl
  all_goals first
    | (apply get_end_entity_certificate_error_shape env <;> assumption)
    | (apply verify_attestation_report_body_error_shape env v <;> assumption)


/-- `verify_cert` after a successful DER parse, with validity window and the
remaining stages exposed. -/
lemma verify_cert_parse_some (env : ExternalEnv) (v : EnclaveCertVerifier)
    (cert : List Byte) (now : Int) (pc : ParsedCertificate)
    (hx : env.parse_x509_der cert = some pc) :
    verify_cert env v cert now =
      if now < pc.validity.not_before then .error .CertificateNotBegin
      else if now ≥ pc.validity.not_after then .error .CertificateExpired
      else
        match pc.extensions.find?
            (fun ext => ext.1 == OID_EXTENSION_ATTESTATION_REPORT) with
        | none => .error .MissingAttestationReport
        | some extension =>
          match verify_attestation_report env v extension.2
              pc.subject_public_key now with
          | .error e => .error e
          | .ok quote => .ok { public_key := pc.subject_public_key, quote := quote } := by
  unfold verify_cert
  rw [hx]

/-!
## Claim theorems
-/

/-- Claim C9: `verify_cert` is deterministic: for a fixed environment,
verifier, certificate bytes and instant, any two results of the call are
equal. -/
theorem c9_deterministic (env : ExternalEnv) (v : EnclaveCertVerifier)
    (cert : List Byte) (now : Int)
    (r₁ r₂ : Except EnclaveCertVerifierError CertVerifyResult)
    (h₁ : verify_cert env v cert now = r₁)
    (h₂ : verify_cert env v cert now = r₂) : r₁ = r₂ := by
  rw [← h₁, ← h₂]

theorem c9_deterministic_witness :
    (Except.ok demoResult : Except EnclaveCertVerifierError CertVerifyResult) =
      .ok demoResult :=
  c9_deterministic demoEnv demoVerifier [1] 10 (.ok demoResult) (.ok demoResult) rfl rfl

/-- Claim C5: for a certificate whose DER parses, `verify_cert` passes the
validity-window check exactly when `not_before ≤ now < not_after`; it returns
`CertificateNotBegin` exactly when `now < not_before`, and `CertificateExpired`
exactly when the not-begin check passed and `not_after ≤ now` (`not_after` is
exclusive); no later stage produces either error. -/
theorem c5_validity_window (env : ExternalEnv) (v : EnclaveCertVerifier)
    (cert : List Byte) (now : Int) (pc : ParsedCertificate)
    (hx : env.parse_x509_der cert = some pc) :
    ((verify_cert env v cert now ≠ .error .CertificateNotBegin ∧
      verify_cert env v cert now ≠ .error .CertificateExpired) ↔
      (pc.validity.not_before ≤ now ∧ now < pc.validity.not_after))
    ∧ (verify_cert env v cert now = .error .CertificateNotBegin ↔
        now < pc.validity.not_before)
    ∧ (verify_cert env v cert now = .error .CertificateExpired ↔
        (pc.validity.not_before ≤ now ∧ pc.validity.not_after ≤ now)) := by
  rw [verify_cert_parse_some env v cert now pc hx]
  by_cases h1 : now < pc.validity.not_before
  · rw [if_pos h1]
    simp only [ne_eq, Except.error.injEq]
    constructor
    · constructor
      · intro hc
        exact absurd trivial hc.1
      · intro hw
        omega
    · constructor
      · exact ⟨fun _ => h1, fun _ => trivial⟩
      · constructor
        · intro hc
          exact absurd hc (by simp)
        · intro hw
          omega
  · rw [if_neg h1]
    by_cases h2 : now ≥ pc.validity.not_after
    · rw [if_pos h2]
      simp only [ne_eq, Except.error.injEq]
      constructor
      · constructor
        · intro hc
          exact absurd trivial hc.2
        · intro hw
          omega
      · constructor
        · constructor
          · intro hc
            exact absurd hc (by simp)
          · intro hlt
            omega
        · exact ⟨fun _ => ⟨by omega, h2⟩, fun _ => trivial⟩
    · rw [if_neg h2]
      cases hf : pc.extensions.find?
          (fun ext => ext.1 == OID_EXTENSION_ATTESTATION_REPORT) with
      | none =>
        dsimp only
        simp only [ne_eq, Except.error.injEq]
        refine ⟨⟨fun _ => ⟨by omega, by omega⟩, fun _ => ⟨by simp, by simp⟩⟩,
          ⟨fun hc => absurd hc (by simp), fun hlt => by omega⟩,
          ⟨fun hc => absurd hc (by simp), fun hw => by omega⟩⟩
      | some ext =>
        dsimp only
        cases hr : verify_attestation_report env v ext.2 pc.subject_public_key now with
        | error e =>
          have hsh := (isWindowError_false_iff e).mp
            (verify_attestation_report_error_shape env v ext.2
              pc.subject_public_key now e hr)
          dsimp only
          simp only [ne_eq, Except.error.injEq]
          refine ⟨⟨fun _ => ⟨by omega, by omega⟩, fun _ => ⟨hsh.1, hsh.2⟩⟩,
            ⟨fun hc => absurd hc hsh.1, fun hlt => by omega⟩,
            ⟨fun hc => absurd hc hsh.2, fun hw => by omega⟩⟩
        | ok q =>
          dsimp only
          simp only [ne_eq]
          refine ⟨⟨fun _ => ⟨by omega, by omega⟩, fun _ => ⟨by simp, by simp⟩⟩,
            ⟨fun hc => absurd hc (by simp), fun hlt => by omega⟩,
            ⟨fun hc => absurd hc (by simp), fun hw => by omega⟩⟩

theorem c5_validity_window_witness :
    verify_cert demoEnv demoVerifier [1] 200 = .error .CertificateExpired :=
  ((c5_validity_window demoEnv demoVerifier [1] 200 demoCert rfl).2.2).mpr
    (by constructor <;> decide)

/-- Claim C4: once the report body and its timestamp parse, the freshness check
accepts exactly when `timestamp + report_validity_duration ≥ now`, returning
`OldAttestationReport` otherwise; with a non-negative validity duration a
timestamp strictly in the future of `now` is never rejected by this check. -/
theorem c4_freshness (env : ExternalEnv) (v : EnclaveCertVerifier)
    (b pk : List Byte) (now : Int) (body : AttestationReportBody) (t : Int)
    (hb : env.json_parse_body b = .ok body)
    (ht : env.parse_datetime (body.timestamp ++ "+00:00") = .ok t)
    (hd : 0 ≤ v.report_validity_duration) :
    (verify_attestation_report_body env v b pk now = .error .OldAttestationReport ↔
      t + v.report_validity_duration < now)
    ∧ (now < t →
        verify_attestation_report_body env v b pk now ≠ .error .OldAttestationReport) := by
  have hfwd : verify_attestation_report_body env v b pk now =
      .error .OldAttestationReport → t + v.report_validity_duration < now := by
    intro h
    by_cases hlt : t + v.report_validity_duration < now
    · exact hlt
    · exfalso
      unfold verify_attestation_report_body at h
      simp only [hb, ht] at h
      rw [if_neg hlt] at h
      repeat' split at h
      all_goals cases h
  have hbwd : t + v.report_validity_duration < now →
      verify_attestation_report_body env v b pk now = .error .OldAttestationReport := by
    intro hlt
    unfold verify_attestation_report_body
    simp only [hb, ht]
    rw [if_pos hlt]
  exact ⟨⟨hfwd, hbwd⟩, fun hnt h => by have := hfwd h; omega⟩

theorem c4_freshness_witness :
    verify_attestation_report_body demoEnv demoVerifier [3] demoPk 90000 =
      .error .OldAttestationReport :=
  ((c4_freshness demoEnv demoVerifier [3] demoPk 90000 demoBody 10 rfl rfl
    (by decide)).1).mpr (by decide)

/-- Claim C10: once the body parses and is fresh, a status string the status
parser rejects makes the verification return `EnclaveQuoteStatusParsingError`
(never `InvalidEnclaveQuoteStatus`), and `InvalidEnclaveQuoteStatus` is
returned only when the status parsed to a recognized value that is absent from
the accepted set (and it carries the status string as provided). -/
theorem c10_status_errors (env : ExternalEnv) (v : EnclaveCertVerifier)
    (b pk : List Byte) (now : Int) (body : AttestationReportBody) (t : Int)
    (hb : env.json_parse_body b = .ok body)
    (ht : env.parse_datetime (body.timestamp ++ "+00:00") = .ok t)
    (hfresh : ¬(t + v.report_validity_duration < now)) :
    (∀ e, env.parse_status body.isv_enclave_quote_status = .error e →
      verify_attestation_report_body env v b pk now =
        .error (.EnclaveQuoteStatusParsingError e))
    ∧ (∀ s, verify_attestation_report_body env v b pk now =
        .error (.InvalidEnclaveQuoteStatus s) →
        s = body.isv_enclave_quote_status ∧
        ∃ st, env.parse_status body.isv_enclave_quote_status = .ok st ∧
          st ∉ v.valid_enclave_quote_statuses) := by
  constructor
  · intro e hse
    unfold verify_attestation_report_body
    simp only [hb, ht]
    rw [if_neg hfresh]
    simp only [hse]
  · intro s h
    unfold verify_attestation_report_body at h
    simp only [hb, ht] at h
    rw [if_neg hfresh] at h
    cases hse : env.parse_status body.isv_enclave_quote_status with
    | error e => simp only [hse] at h; cases h
    | ok st =>
      simp only [hse] at h
      by_cases hmem : st ∈ v.valid_enclave_quote_statuses
      · rw [if_neg (not_not_intro hmem)] at h
        exfalso
        repeat' split at h
        all_goals cases h
      · rw [if_pos hmem] at h
        cases h
        exact ⟨rfl, st, rfl, hmem⟩

theorem c10_status_errors_witness :
    verify_attestation_report_body demoEnv demoVerifier [30] demoPk 10 =
      .error (.EnclaveQuoteStatusParsingError "WEIRD")
    ∧ (∃ st, demoEnv.parse_status "GROUP_OUT_OF_DATE" = .ok st ∧
        st ∉ demoVerifier.valid_enclave_quote_statuses) :=
  ⟨(c10_status_errors demoEnv demoVerifier [30] demoPk 10 demoBodyUnknownStatus 10
      rfl rfl (by decide)).1 "WEIRD" rfl,
   (((c10_status_errors demoEnv demoVerifier [33] demoPk 10 demoBodyOutdatedStatus 10
      rfl rfl (by decide)).2 "GROUP_OUT_OF_DATE" rfl)).2⟩


/-- Claim C6: with everything up to and including the public-key binding
satisfied and the measurement fields matching, the identity check accepts
exactly when the configured `cpu_svn` is lexicographically at most the quote's
and the configured `isv_svn` is numerically at most the quote's; a configured
SVN strictly greater than the quote's yields `MeasurementMismatch`, and
equality is accepted. -/
theorem c6_svn_policy (env : ExternalEnv) (v : EnclaveCertVerifier)
    (b pk : List Byte) (now : Int) (body : AttestationReportBody) (t : Int)
    (st : EnclaveQuoteStatus) (q : Quote) (info : EnclaveInfo)
    (hb : env.json_parse_body b = .ok body)
    (ht : env.parse_datetime (body.timestamp ++ "+00:00") = .ok t)
    (hfresh : ¬(t + v.report_validity_duration < now))
    (hst : env.parse_status body.isv_enclave_quote_status = .ok st)
    (hmem : st ∈ v.valid_enclave_quote_statuses)
    (hq : env.get_quote body = .ok q)
    (hlen : pk.length = 65) (hhead : pk.head? = some 4)
    (hdata : pk.drop 1 = q.report_body.report_data)
    (hinfo : v.enclave_info = some info)
    (hms : info.mr_signer = q.report_body.measurement.mr_signer)
    (hme : info.mr_enclave.all (fun m => m == q.report_body.measurement.mr_enclave) = true) :
    (verify_attestation_report_body env v b pk now = .ok q ↔
      (lexLe info.cpu_svn q.report_body.cpu_svn = true ∧
        info.isv_svn ≤ q.report_body.isv_svn))
    ∧ ((lexLe info.cpu_svn q.report_body.cpu_svn = false ∨
        q.report_body.isv_svn < info.isv_svn) →
        verify_attestation_report_body env v b pk now = .error .MeasurementMismatch)
    ∧ (info.cpu_svn = q.report_body.cpu_svn → info.isv_svn = q.report_body.isv_svn →
        verify_attestation_report_body env v b pk now = .ok q) := by
  have hred : verify_attestation_report_body env v b pk now =
      (if lexGt info.cpu_svn q.report_body.cpu_svn then
        .error .MeasurementMismatch
      else if info.isv_svn > q.report_body.isv_svn then
        .error .MeasurementMismatch
      else .ok q) := by
    unfold verify_attestation_report_body
    simp only [hb, ht]
    rw [if_neg hfresh]
    simp only [hst]
    rw [if_neg (not_not_intro hmem)]
    simp only [hq]
    rw [if_neg (by simp [hlen, hhead, hdata])]
    simp only [hinfo]
    rw [if_neg (by simp [hms])]
    rw [if_neg (by simp [hme])]
  refine ⟨?_, ?_, ?_⟩
  · rw [hred]
    by_cases hcpu : lexGt info.cpu_svn q.report_body.cpu_svn
    · rw [if_pos hcpu]
      constructor
      · intro hcon
        cases hcon
      · rintro ⟨hle, _⟩
        rw [← lexGt_eq_false_iff] at hle
        rw [hcpu] at hle
        cases hle
    · rw [if_neg hcpu]
      rw [Bool.not_eq_true] at hcpu
      by_cases hisv : info.isv_svn > q.report_body.isv_svn
      · rw [if_pos hisv]
        constructor
        · intro hcon
          cases hcon
        · rintro ⟨_, hle⟩
          omega
      · rw [if_neg hisv]
        exact ⟨fun _ => ⟨(lexGt_eq_false_iff _ _).mp hcpu, by omega⟩, fun _ => rfl⟩
  · rw [hred]
    intro hbad
    by_cases hcpu : lexGt info.cpu_svn q.report_body.cpu_svn
    · rw [if_pos hcpu]
    · rw [if_neg hcpu]
      rw [Bool.not_eq_true] at hcpu
      have hisv : info.isv_svn > q.report_body.isv_svn := by
        cases hbad with
        | inl hl =>
          exfalso
          have := (lexGt_eq_false_iff info.cpu_svn q.report_body.cpu_svn).mp hcpu
          rw [hl] at this
          cases this
        | inr hr => omega
      rw [if_pos hisv]
  · rw [hred]
    intro hc hi
    rw [hc]
    rw [if_neg (by rw [lexGt_self]; exact fun h => nomatch h)]
    rw [if_neg (by omega)]

theorem c6_svn_policy_witness :
    verify_attestation_report_body demoEnv demoVerifierInfoMatch [3] demoPk 10 =
      .ok demoQuote :=
  (c6_svn_policy demoEnv demoVerifierInfoMatch [3] demoPk 10 demoBody 10 .OK
    demoQuote demoInfoMatch rfl rfl (by decide) rfl (by decide) rfl (by decide)
    rfl (by decide) rfl rfl (by decide)).2.2 rfl rfl

/-- Claim C7: when decoding the envelope's `signing_cert` field, a PEM split
failure yields `AttestationReportSigningCertificateChainParsingError`, an empty
chain yields `MissingAttestationReportSigningCertificate`, and a chain whose
first certificate fails X.509 parsing yields
`AttestationReportSigningCertificateParsingError`. -/
theorem c7_chain_decode_errors (env : ExternalEnv) (v : EnclaveCertVerifier)
    (rep pk : List Byte) (now : Int) (report : AttestationReport)
    (hr : env.json_parse_report rep = .ok report) :
    (env.pem_certs report.signing_cert = none →
      verify_attestation_report env v rep pk now =
        .error .AttestationReportSigningCertificateChainParsingError)
    ∧ (env.pem_certs report.signing_cert = some [] →
      verify_attestation_report env v rep pk now =
        .error .MissingAttestationReportSigningCertificate)
    ∧ (∀ c cs, env.pem_certs report.signing_cert = some (c :: cs) →
        env.end_entity_from c = false →
        verify_attestation_report env v rep pk now =
          .error .AttestationReportSigningCertificateParsingError) := by
  refine ⟨?_, ?_, ?_⟩
  · intro hp
    unfold verify_attestation_report
    simp only [hr, hp]
  · intro hp
    unfold verify_attestation_report
    simp only [hr, hp]
    rfl
  · intro c cs hp hee
    unfold verify_attestation_report
    simp only [hr, hp]
    unfold get_end_entity_certificate
    simp [hee]

theorem c7_chain_decode_errors_witness :
    verify_attestation_report demoEnv demoVerifier [20] demoPk 10 =
      .error .AttestationReportSigningCertificateChainParsingError
    ∧ verify_attestation_report demoEnv demoVerifier [21] demoPk 10 =
      .error .MissingAttestationReportSigningCertificate
    ∧ verify_attestation_report demoEnv demoVerifier [22] demoPk 10 =
      .error .AttestationReportSigningCertificateParsingError :=
  ⟨(c7_chain_decode_errors demoEnv demoVerifier [20] demoPk 10
      { demoReport with signing_cert := [50] } rfl).1 rfl,
   (c7_chain_decode_errors demoEnv demoVerifier [21] demoPk 10
      { demoReport with signing_cert := [51] } rfl).2.1 rfl,
   (c7_chain_decode_errors demoEnv demoVerifier [22] demoPk 10
      { demoReport with signing_cert := [52] } rfl).2.2 [60] [] rfl rfl⟩

/-- A successful body verification implies the public-key binding held. -/
lemma verify_attestation_report_body_ok_binding (env : ExternalEnv)
    (v : EnclaveCertVerifier) (b pk : List Byte) (now : Int) (q : Quote)
    (h : verify_attestation_report_body env v b pk now = .ok q) :
    pk.length = 65 ∧ pk.head? = some 4 ∧
      pk.drop 1 = q.report_body.report_data := by
  unfold verify_attestation_report_body at h
  repeat' split at h
  all_goals try cases h
  all_goals simp_all

/-- A successful attestation-report verification implies the public-key
binding held. -/
lemma verify_attestation_report_ok_binding (env : ExternalEnv)
    (v : EnclaveCertVerifier) (a pk : List Byte) (now : Int) (q : Quote)
    (h : verify_attestation_report env v a pk now = .ok q) :
    pk.length = 65 ∧ pk.head? = some 4 ∧
      pk.drop 1 = q.report_body.report_data := by
  unfold verify_attestation_report at h
  repeat' split at h
  all_goals try cases h
  all_goals
    exact verify_attestation_report_body_ok_binding env v _ pk now q (by assumption)

/-- A successful `verify_cert` result satisfies the public-key binding. -/
lemma verify_cert_ok_binding (env : ExternalEnv) (v : EnclaveCertVerifier)
    (cert : List Byte) (now : Int) (r : CertVerifyResult)
    (h : verify_cert env v cert now = .ok r) :
    r.public_key.length = 65 ∧ r.public_key.head? = some 4 ∧
      r.public_key.drop 1 = r.quote.report_body.report_data := by
  unfold verify_cert at h
  dsimp only at h
  repeat' split at h
  all_goals try cases h
  all_goals
    (dsimp only
     exact verify_attestation_report_ok_binding env v _ _ now _ (by assumption))


/-- Claim C1: whenever `verify_cert` returns a result, the result's public key
is exactly 65 bytes, begins with `0x04`, and its remaining 64 bytes equal the
first 64 bytes of the returned quote's `report_data`; and when every stage
through quote decoding succeeds but that binding fails, `verify_cert` returns
`PublicKeyMismatch`. -/
theorem c1_public_key_binding (env : ExternalEnv) (v : EnclaveCertVerifier)
    (cert : List Byte) (now : Int) (pc : ParsedCertificate)
    (ext : List Nat × List Byte) (report : AttestationReport)
    (signing : List Byte) (rest : List (List Byte))
    (body : AttestationReportBody) (t : Int) (st : EnclaveQuoteStatus) (q : Quote)
    (hx : env.parse_x509_der cert = some pc)
    (hnb : pc.validity.not_before ≤ now)
    (hna : now < pc.validity.not_after)
    (hext : pc.extensions.find?
      (fun e => e.1 == OID_EXTENSION_ATTESTATION_REPORT) = some ext)
    (hrep : env.json_parse_report ext.2 = .ok report)
    (hchain : env.pem_certs report.signing_cert = some (signing :: rest))
    (hee : env.end_entity_from signing = true)
    (hvc : env.verify_chain signing rest v.root_cert_store now = none)
    (hvs : env.verify_signature signing report.body report.signature = none)
    (hbody : env.json_parse_body report.body = .ok body)
    (ht : env.parse_datetime (body.timestamp ++ "+00:00") = .ok t)
    (hfresh : ¬(t + v.report_validity_duration < now))
    (hst : env.parse_status body.isv_enclave_quote_status = .ok st)
    (hmem : st ∈ v.valid_enclave_quote_statuses)
    (hq : env.get_quote body = .ok q) :
    (∀ r, verify_cert env v cert now = .ok r →
      r.public_key.length = 65 ∧ r.public_key.head? = some 4 ∧
        r.public_key.drop 1 = r.quote.report_body.report_data.take 64)
    ∧ (¬(pc.subject_public_key.length = 65 ∧
          pc.subject_public_key.head? = some 4 ∧
          pc.subject_public_key.drop 1 = q.report_body.report_data) →
        verify_cert env v cert now = .error .PublicKeyMismatch) := by
  constructor
  · intro r h
    obtain ⟨hl, hh, hd⟩ := verify_cert_ok_binding env v cert now r h
    refine ⟨hl, hh, ?_⟩
    have hlen64 : r.quote.report_body.report_data.length = 64 := by
      have hcg := congrArg List.length hd
      rw [List.length_drop, hl] at hcg
      omega
    rw [hd, List.take_of_length_le (by omega)]
  · intro hn
    have hcond : (pc.subject_public_key.length != 65 ||
        pc.subject_public_key.head? != some 4 ||
        pc.subject_public_key.drop 1 != q.report_body.report_data) = true := by
      by_contra hcf
      apply hn
      simp only [Bool.not_eq_true, Bool.or_eq_false_iff, bne_eq_false_iff_eq] at hcf
      exact ⟨hcf.1.1, hcf.1.2, hcf.2⟩
    rw [verify_cert_parse_some env v cert now pc hx]
    rw [if_neg (by omega), if_neg (by omega)]
    simp only [hext]
    unfold verify_attestation_report
    simp only [hrep, hchain]
    unfold get_end_entity_certificate
    simp only [List.head?]
    rw [if_pos hee]
    unfold verify_end_entity_certificate
    simp only [List.drop_succ_cons, List.drop_zero, hvc, hvs]
    unfold verify_attestation_report_body
    simp only [hbody, ht]
    rw [if_neg hfresh]
    simp only [hst]
    rw [if_neg (not_not_intro hmem)]
    simp only [hq]
    rw [if_pos hcond]

theorem c1_public_key_binding_witness :
    verify_cert demoEnv demoVerifier [31] 10 = .error .PublicKeyMismatch :=
  (c1_public_key_binding demoEnv demoVerifier [31] 10 demoCertEmptyKey
    (OID_EXTENSION_ATTESTATION_REPORT, [2]) demoReport [6] [] demoBody 10 .OK
    demoQuote rfl (by decide) (by decide) rfl rfl rfl rfl rfl rfl rfl rfl
    (by decide) rfl (by decide) rfl).2 (by decide)


lemma exbind_ok (a : α) (k : α → Except EnclaveCertVerifierError β) :
    (Except.ok a >>= k) = k a := rfl

lemma exbind_err (e : EnclaveCertVerifierError)
    (k : α → Except EnclaveCertVerifierError β) :
    (Except.error e >>= k) = .error e := rfl

/-- Claim C2 (amended order): `verify_cert` computes exactly the first-failure
pipeline `verify_cert_pipeline`; in particular the public-key binding check
runs immediately after quote decoding and before the enclave-identity
checks. -/
theorem c2_pipeline_order (env : ExternalEnv) (v : EnclaveCertVerifier)
    (certificate : List Byte) (now : Int) :
    verify_cert env v certificate now = verify_cert_pipeline env v certificate now := by
  unfold verify_cert verify_cert_pipeline
  cases hx : env.parse_x509_der certificate with
  | none => rfl
  | some pc =>
    simp only [ofOption, checkThat, exbind_ok, exbind_err]
    by_cases h1 : now < pc.validity.not_before
    · rw [if_pos h1, if_neg (show ¬pc.validity.not_before ≤ now by omega)]
      rfl
    · rw [if_neg h1, if_pos (show pc.validity.not_before ≤ now by omega)]
      simp only [exbind_ok]
      by_cases h2 : now ≥ pc.validity.not_after
      · rw [if_pos h2, if_neg (show ¬now < pc.validity.not_after by omega)]
        rfl
      · rw [if_neg h2, if_pos (show now < pc.validity.not_after by omega)]
        simp only [exbind_ok]
        cases hf : pc.extensions.find?
            (fun e => e.1 == OID_EXTENSION_ATTESTATION_REPORT) with
        | none => rfl
        | some ext =>
          simp only [ofOption, exbind_ok]
          unfold verify_attestation_report
          cases hrep : env.json_parse_report ext.2 with
          | error e => rfl
          | ok report =>
            simp only [Except.mapError, exbind_ok]
            cases hpem : env.pem_certs report.signing_cert with
            | none => rfl
            | some chain =>
              simp only [ofOption, exbind_ok]
              unfold get_end_entity_certificate
              cases hh : chain.head? with
              | none => rfl
              | some signing =>
                simp only [ofOption, exbind_ok]
                by_cases hee : env.end_entity_from signing = true
                · rw [if_pos hee, if_pos hee]
                  simp only [exbind_ok]
                  unfold verify_end_entity_certificate
                  cases hvc : env.verify_chain signing (chain.drop 1)
                      v.root_cert_store now with
                  | some e => rfl
                  | none =>
                    simp only [checkVerdict, exbind_ok]
                    cases hvs : env.verify_signature signing report.body
                        report.signature with
                    | some e => rfl
                    | none =>
                      simp only [checkVerdict, exbind_ok]
                      unfold verify_attestation_report_body
                      cases hbj : env.json_parse_body report.body with
                      | error e => rfl
                      | ok body =>
                        simp only [Except.mapError, exbind_ok]
                        cases hdt : env.parse_datetime (body.timestamp ++ "+00:00") with
                        | error e => rfl
                        | ok t =>
                          simp only [Except.mapError, exbind_ok]
                          by_cases hfr : t + v.report_validity_duration < now
                          · rw [if_pos hfr, if_neg (show ¬now ≤ t + v.report_validity_duration by omega)]
                            rfl
                          · rw [if_neg hfr, if_pos (show now ≤ t + v.report_validity_duration by omega)]
                            simp only [exbind_ok]
                            cases hst : env.parse_status body.isv_enclave_quote_status with
                            | error e => rfl
                            | ok st =>
                              simp only [Except.mapError, exbind_ok]
                              by_cases hm : st ∈ v.valid_enclave_quote_statuses
                              · rw [if_neg (not_not_intro hm), if_pos hm]
                                simp only [exbind_ok]
                                cases hq : env.get_quote body with
                                | error e => rfl
                                | ok q =>
                                  simp only [Except.mapError, exbind_ok]
                                  by_cases hbind : pc.subject_public_key.length = 65 ∧
                                      pc.subject_public_key.head? = some 4 ∧
                                      pc.subject_public_key.drop 1 = q.report_body.report_data
                                  · have hbf : (pc.subject_public_key.length != 65 ||
                                        pc.subject_public_key.head? != some 4 ||
                                        pc.subject_public_key.drop 1 !=
                                          q.report_body.report_data) = false := by
                                      obtain ⟨hb1, hb2, hb3⟩ := hbind
                                      simp only [hb1, hb2, hb3, bne_self_eq_false,
                                        Bool.or_self, Bool.or_false, Bool.false_or]
                                    rw [if_neg (show ¬((pc.subject_public_key.length != 65 ||
                                          pc.subject_public_key.head? != some 4 ||
                                          pc.subject_public_key.drop 1 !=
                                            q.report_body.report_data) = true) by
                                              rw [hbf]; exact Bool.false_ne_true),
                                      if_pos hbind]
                                    simp only [exbind_ok]
                                    cases hinfo : v.enclave_info with
                                    | none => rfl
                                    | some info =>
                                      dsimp only
                                      by_cases hs : info.mr_signer =
                                          q.report_body.measurement.mr_signer
                                      · rw [if_neg (show ¬((info.mr_signer !=
                                            q.report_body.measurement.mr_signer) = true) by
                                              simp only [hs, bne_self_eq_false]
                                              exact Bool.false_ne_true),
                                          if_pos hs]
                                        simp only [exbind_ok]
                                        by_cases hmenc : info.mr_enclave.all
                                            (fun m => m == q.report_body.measurement.mr_enclave) = true
                                        · rw [if_neg (show ¬((!info.mr_enclave.all
                                            (fun m => m == q.report_body.measurement.mr_enclave)) = true) by
                                              simp only [hmenc, Bool.not_true]
                                              exact Bool.false_ne_true),
                                            if_pos hmenc]
                                          simp only [exbind_ok]
                                          by_cases hcpu : lexGt info.cpu_svn
                                              q.report_body.cpu_svn = true
                                          · rw [if_pos hcpu,
                                              if_neg (show ¬lexLe info.cpu_svn q.report_body.cpu_svn = true by
                                                intro hlc
                                                have hgf := (lexGt_eq_false_iff info.cpu_svn
                                                  q.report_body.cpu_svn).mpr hlc
                                                rw [hcpu] at hgf
                                                cases hgf)]
                                            rfl
                                          · have hcpu' : lexGt info.cpu_svn
                                                q.report_body.cpu_svn = false := by
                                              rwa [Bool.not_eq_true] at hcpu
                                            rw [if_neg hcpu,
                                              if_pos ((lexGt_eq_false_iff _ _).mp hcpu')]
                                            simp only [exbind_ok]
                                            by_cases hisv : info.isv_svn > q.report_body.isv_svn
                                            · rw [if_pos hisv,
                                                if_neg (show ¬info.isv_svn ≤ q.report_body.isv_svn by omega)]
                                              rfl
                                            · rw [if_neg hisv,
                                                if_pos (show info.isv_svn ≤ q.report_body.isv_svn by omega)]
                                              rfl
                                        · have hm' : info.mr_enclave.all
                                              (fun m => m == q.report_body.measurement.mr_enclave) = false := by
                                            rwa [Bool.not_eq_true] at hmenc
                                          rw [if_pos (show (!info.mr_enclave.all
                                            (fun m => m == q.report_body.measurement.mr_enclave)) = true by
                                              simp only [hm', Bool.not_false]),
                                            if_neg hmenc]
                                          rfl
                                      · rw [if_pos (bne_iff_ne.mpr hs), if_neg hs]
                                        rfl
                                  · have hbt : (pc.subject_public_key.length != 65 ||
                                        pc.subject_public_key.head? != some 4 ||
                                        pc.subject_public_key.drop 1 !=
                                          q.report_body.report_data) = true := by
                                      by_contra hcf
                                      apply hbind
                                      simp only [Bool.not_eq_true, Bool.or_eq_false_iff,
                                        bne_eq_false_iff_eq] at hcf
                                      exact ⟨hcf.1.1, hcf.1.2, hcf.2⟩
                                    rw [if_pos hbt, if_neg hbind]
                                    rfl
                              · rw [if_pos hm, if_neg hm]
                                rfl
                · rw [if_neg hee, if_neg hee]
                  rfl

/-- Claim C2 counterexample: at this input every stage through quote decoding
succeeds, the configured `mr_signer` differs from the quote's (so the claimed
enclave-identity check fails) and the public-key binding also fails; the
claimed order (identity before binding) would return `MeasurementMismatch`,
but the code returns `PublicKeyMismatch`. -/
theorem c2_check_order_counterexample :
    verify_cert demoEnv demoVerifierInfoMismatch [31] 10 = .error .PublicKeyMismatch
    ∧ demoInfoMismatch.mr_signer ≠ demoQuote.report_body.measurement.mr_signer
    ∧ EnclaveCertVerifierError.PublicKeyMismatch ≠ .MeasurementMismatch :=
  ⟨rfl, by decide, by decide⟩


lemma parse_statuses_ok_iff (env : ExternalEnv) (l : List String) :
    (∃ sts, parse_statuses env l = .ok sts) ↔
      ∀ s ∈ l, ∃ st, env.parse_status s = .ok st := by
  induction l with
  | nil =>
    constructor
    · intro _ s hs
      cases hs
    · intro _
      exact ⟨[], rfl⟩
  | cons s rest ih =>
    constructor
    · rintro ⟨sts, h⟩
      unfold parse_statuses at h
      cases hs : env.parse_status s with
      | error e =>
        rw [hs] at h
        cases h
      | ok st =>
        rw [hs] at h
        cases hr : parse_statuses env rest with
        | error e =>
          rw [hr] at h
          cases h
        | ok sts' =>
          intro x hx
          rcases List.mem_cons.mp hx with hx | hx
          · exact ⟨st, hx ▸ hs⟩
          · exact (ih.mp ⟨sts', hr⟩) x hx
    · intro hall
      obtain ⟨st, hst⟩ := hall s (List.mem_cons_self s rest)
      obtain ⟨sts, hsts⟩ := ih.mpr (fun x hx => hall x (List.mem_cons_of_mem _ hx))
      refine ⟨st :: sts, ?_⟩
      unfold parse_statuses
      rw [hst, hsts]

/-- Claim C3 (amended): construction succeeds exactly when the PEM root read
succeeds (with however many roots it yields, zero included) and every
configured status literal parses; the verifier keeps exactly the roots the PEM
read returned, with no at-least-one-anchor requirement. -/
theorem c3_construction (env : ExternalEnv) (config : EnclaveCertVerifierConfig) :
    ((∃ v, EnclaveCertVerifier.new env config = .ok v) ↔
      ((∃ roots, env.add_pem_file config.signing_ca_cert_pem = some roots) ∧
        ∀ s ∈ config.valid_enclave_quote_statuses, ∃ st, env.parse_status s = .ok st))
    ∧ (∀ roots v, env.add_pem_file config.signing_ca_cert_pem = some roots →
        EnclaveCertVerifier.new env config = .ok v → v.root_cert_store = roots) := by
  constructor
  · constructor
    · rintro ⟨v, hv⟩
      unfold EnclaveCertVerifier.new at hv
      cases hp : env.add_pem_file config.signing_ca_cert_pem with
      | none =>
        rw [hp] at hv
        cases hv
      | some roots =>
        rw [hp] at hv
        refine ⟨⟨roots, rfl⟩, ?_⟩
        cases hs : parse_statuses env config.valid_enclave_quote_statuses with
        | error e =>
          rw [hs] at hv
          cases hv
        | ok sts =>
          exact (parse_statuses_ok_iff env _).mp ⟨sts, hs⟩
    · rintro ⟨⟨roots, hroots⟩, hall⟩
      obtain ⟨sts, hsts⟩ := (parse_statuses_ok_iff env _).mpr hall
      refine ⟨{ root_cert_store := roots
                valid_enclave_quote_statuses := sts
                report_validity_duration := (config.report_validity_secs : Int)
                enclave_info := config.enclave_info }, ?_⟩
      unfold EnclaveCertVerifier.new
      rw [hroots, hsts]
  · intro roots v hroots hv
    unfold EnclaveCertVerifier.new at hv
    rw [hroots] at hv
    cases hs : parse_statuses env config.valid_enclave_quote_statuses with
    | error e =>
      rw [hs] at hv
      cases hv
    | ok sts =>
      rw [hs] at hv
      cases hv
      rfl

/-- The configuration of the C3 counterexample: a PEM field holding no
certificate at all (rustls `add_pem_file` reads zero PEM blocks from it and
returns `Ok((0, 0))`, not an error) and a status list that parses. -/
def demoEmptyPemConfig : EnclaveCertVerifierConfig :=
  { signing_ca_cert_pem := []
    valid_enclave_quote_statuses := ["OK"]
    report_validity_secs := 86400
    enclave_info := none }

def demoVerifierNoRoots : EnclaveCertVerifier :=
  { root_cert_store := []
    valid_enclave_quote_statuses := [.OK]
    report_validity_duration := 86400
    enclave_info := none }

/-- Claim C3 counterexample: on a certificate-free PEM input the construction
succeeds — `EnclaveCertVerifier::new` never checks that at least one trust
anchor was loaded, so it returns a verifier with an empty root store instead
of failing. -/
theorem c3_construction_counterexample :
    EnclaveCertVerifier.new demoEnv demoEmptyPemConfig = .ok demoVerifierNoRoots
    ∧ demoVerifierNoRoots.root_cert_store = [] :=
  ⟨rfl, rfl⟩

lemma verify_certs_at_ok_iff (env : ExternalEnv) (v : EnclaveCertVerifier) :
    ∀ (certs : List (List Byte)) (clock : Nat → Int),
      verify_certs_at env v clock certs = .ok () ↔
        ∀ i (h : i < certs.length),
          ∃ r, verify_cert env v (certs.get ⟨i, h⟩) (clock i) = .ok r := by
  intro certs
  induction certs with
  | nil =>
    intro clock
    constructor
    · intro _ i h
      cases h
    · intro _
      rfl
  | cons c rest ih =>
    intro clock
    constructor
    · intro hok i h
      unfold verify_certs_at at hok
      cases hc : verify_cert env v c (clock 0) with
      | error e =>
        rw [hc] at hok
        cases hok
      | ok r0 =>
        rw [hc] at hok
        cases i with
        | zero => exact ⟨r0, hc⟩
        | succ i =>
          have h' : i < rest.length := by
            simp only [List.length_cons] at h
            omega
          exact (ih (fun n => clock (n + 1))).mp hok i h'
    · intro hall
      unfold verify_certs_at
      have hr0 := hall 0 (Nat.succ_pos rest.length)
      obtain ⟨r0, hr0⟩ := hr0
      have hr0' : verify_cert env v c (clock 0) = .ok r0 := hr0
      rw [hr0']
      exact (ih (fun n => clock (n + 1))).mpr
        (fun i h => hall (i + 1) (Nat.succ_lt_succ h))

/-- Claim C8 (amended): the two TLS adapters run the same verification loop,
and the loop samples the platform clock once per presented certificate: the
verification succeeds exactly when the chain is nonempty and the i-th
presented certificate verifies at the i-th clock sample. -/
theorem c8_adapter_clock (env : ExternalEnv) (v : EnclaveCertVerifier)
    (clock : Nat → Int) (certs : List (List Byte)) :
    verify_server_cert env v clock certs = verify_client_cert env v clock certs
    ∧ (verify_server_cert env v clock certs = .ok () ↔
        (certs ≠ [] ∧ ∀ i (h : i < certs.length),
          ∃ r, verify_cert env v (certs.get ⟨i, h⟩) (clock i) = .ok r)) := by
  constructor
  · rfl
  · unfold verify_server_cert
    by_cases he : certs.isEmpty
    · rw [if_pos he]
      constructor
      · intro h
        cases h
      · rintro ⟨hne, _⟩
        exact absurd (List.isEmpty_iff.mp he) hne
    · rw [if_neg he]
      rw [verify_certs_at_ok_iff env v certs clock]
      constructor
      · intro hall
        refine ⟨?_, hall⟩
        intro hn
        subst hn
        exact he rfl
      · rintro ⟨_, hall⟩
        exact hall

/-- Claim C8 counterexample: two clock streams that agree on their first
sample give different adapter outcomes on a two-certificate chain, so the
adapter does not thread one single sampled instant through the verification
of every presented certificate — `Utc::now()` is sampled anew inside the
loop, once per certificate. -/
theorem c8_clock_counterexample :
    demoClockA 0 = demoClockB 0
    ∧ verify_server_cert demoEnv demoVerifier demoClockA [[1], [11]] = .ok ()
    ∧ verify_server_cert demoEnv demoVerifier demoClockB [[1], [11]] =
        .error (.General .CertificateNotBegin) :=
  ⟨rfl, rfl, rfl⟩

end RaClient
